import Mathlib

/-!
Verification of the `pi_setup` core subsystems against their specification.

This file shallowly embeds the two core components of the repository:

* the Budget Ledger ("Bouncer", `services/redis_rate_limiter.py`), a
  per-platform weekly budget limiter backed by Redis, and
* the RAG Manager (`database/rag_manager.py`, YouTube and X variants), a
  vector store offering similarity search, duplicate detection and
  feedback ingestion,

together with the Budget Config Loader (`services/budget_reader.py`).

Machine integers are modelled as `Nat`/`Int`; embedding-vector components
as `ℚ` (the claims never depend on float rounding); fallible operations
return `Except`/`Option` or carry explicit failure flags.  Redis state for
one `(platform, iso_week)` bucket is a total counter plus a per-operation
association list, mirroring the key schema
`budget:{platform}:{api_name}:week:{iso_week}`.
-/

namespace PiSetup

/-! ## Budget Ledger ("Bouncer") — `redis_rate_limiter.py` -/

/-- The Redis contents relevant to one `(platform, iso_week)` bucket:
the counter at `budget:{platform}:total:week:{w}` and the counters at
`budget:{platform}:{api_name}:week:{w}`. -/
structure LedgerState where
  total : Nat
  perApi : List (String × Nat)
deriving DecidableEq, Repr

/-- `DEFAULT_API_COSTS` from `redis_rate_limiter.py`. -/
def DEFAULT_API_COSTS : List (String × Nat) :=
  [("gemini_script", 50),
   ("gemini_validate", 30),
   ("gemini_metadata", 20),
   ("gemini_clip_plan", 15),
   ("gemini_planner", 25),
   ("gemini_embedding", 5),
   ("elevenlabs_per_minute", 100),
   ("rawg_fetch", 2),
   ("serpapi_search", 10)]

/-- The in-process configuration of a `RedisRateLimiter` instance:
`platform`, `_budget_limit` and `_api_costs`. -/
structure RateLimiterCfg where
  platform : String
  budget_limit : Option Nat
  api_costs : List (String × Nat)
deriving DecidableEq, Repr

/-- `RedisRateLimiter.__init__`: lower-cases the platform, keeps the
optional `budget_limit`, and copies `DEFAULT_API_COSTS`. -/
def RedisRateLimiter.init (platform : String) (budget_limit : Option Nat) :
    RateLimiterCfg :=
  { platform := platform.toLower
    budget_limit := budget_limit
    api_costs := DEFAULT_API_COSTS }

/-- `set_budget_limit`: store the weekly ceiling. -/
def set_budget_limit (cfg : RateLimiterCfg) (weekly_units : Nat) : RateLimiterCfg :=
  { cfg with budget_limit := some weekly_units }

/-- `dict.get(api_name, 1)` on the cost table (`get_api_cost`). -/
def get_api_cost (costs : List (String × Nat)) (api_name : String) : Nat :=
  match costs.find? (fun p => p.1 = api_name) with
  | some p => p.2
  | none => 1

/-- The units a call actually spends: the explicit argument when given,
otherwise the default cost from the table. -/
def effective_units (costs : List (String × Nat)) (api_name : String)
    (units : Option Nat) : Nat :=
  match units with
  | some u => u
  | none => get_api_cost costs api_name

/-- `INCRBY` on a per-api key of the bucket. -/
def bumpApi : List (String × Nat) → String → Nat → List (String × Nat)
  | [], api, u => [(api, u)]
  | (k, v) :: rest, api, u =>
      if k = api then (k, v + u) :: rest else (k, v) :: bumpApi rest api u

/-- Value of a counter key in an association list (missing key reads as
0, as `int(redis.get(key) or 0)` does). -/
def lookup0 (l : List (String × Nat)) (api : String) : Nat :=
  match l.find? (fun p => p.1 = api) with
  | some p => p.2
  | none => 0

/-- Current value of a per-api counter of the bucket. -/
def apiCount (s : LedgerState) (api : String) : Nat :=
  lookup0 s.perApi api

lemma lookup0_bumpApi (l : List (String × Nat)) (api : String) (u : Nat) :
    lookup0 (bumpApi l api u) api = lookup0 l api + u := by
  induction l with
  | nil => simp [bumpApi, lookup0, List.find?]
  | cons p rest ih =>
      obtain ⟨k, v⟩ := p
      by_cases hk : k = api
      · subst hk
        simp [bumpApi, lookup0, List.find?]
      · have hdk : (decide (k = api)) = false := by simp [hk]
        simp only [bumpApi, if_neg hk, lookup0, List.find?, hdk] at *
        exact ih

/-- The pipelined `INCRBY total_key units; INCRBY api_key units` of
`check_and_consume`'s success path. -/
def consumeUnits (s : LedgerState) (api : String) (u : Nat) : LedgerState :=
  { total := s.total + u, perApi := bumpApi s.perApi api u }

/-- `RedisRateLimiter.check_and_consume` on a reachable store
(happy path, no Redis exception): read the week's total, compare
`current_total + units > budget_limit` when a limit is set, and either
deny with no mutation or increment both counters and allow.  When no
limit is configured the comparison is skipped entirely. -/
def check_and_consume (cfg : RateLimiterCfg) (s : LedgerState)
    (api_name : String) (units : Option Nat) : Bool × LedgerState :=
  let u := effective_units cfg.api_costs api_name units
  match cfg.budget_limit with
  | some limit =>
      if s.total + u > limit then (false, s)
      else (true, consumeUnits s api_name u)
  | none => (true, consumeUnits s api_name u)

/-- `RedisRateLimiter.get_remaining` on a reachable store with a limit
configured: `max(0, budget_limit - used)`; with no limit configured it
returns `budget_limit or 0`, i.e. 0. -/
def get_remaining (cfg : RateLimiterCfg) (s : LedgerState) : Nat :=
  match cfg.budget_limit with
  | some limit => (max 0 ((limit : Int) - (s.total : Int))).toNat
  | none => 0

/-- Run a sequence of sequential `check_and_consume` calls, returning the
list of boolean results and the final store state. -/
def runCalls (cfg : RateLimiterCfg) (s : LedgerState) :
    List (String × Option Nat) → List Bool × LedgerState
  | [] => ([], s)
  | (api, u) :: rest =>
      let r := check_and_consume cfg s api u
      let tail := runCalls cfg r.2 rest
      (r.1 :: tail.1, tail.2)

/-- The sum of the units of the calls in the sequence that returned
`true` (the units actually consumed). -/
def consumedSum (cfg : RateLimiterCfg) (s : LedgerState) :
    List (String × Option Nat) → Nat
  | [] => 0
  | (api, u) :: rest =>
      let r := check_and_consume cfg s api u
      (if r.1 then effective_units cfg.api_costs api u else 0) +
        consumedSum cfg r.2 rest

lemma check_and_consume_total_of_true (cfg : RateLimiterCfg) (s : LedgerState)
    (api : String) (u : Option Nat)
    (h : (check_and_consume cfg s api u).1 = true) :
    (check_and_consume cfg s api u).2.total =
      s.total + effective_units cfg.api_costs api u := by
  unfold check_and_consume at *
  cases hl : cfg.budget_limit with
  | none => simp [hl, consumeUnits]
  | some L =>
      simp only [hl] at h ⊢
      by_cases hgt : s.total + effective_units cfg.api_costs api u > L
      · simp [hgt] at h
      · simp [hgt, consumeUnits]

lemma check_and_consume_snd_of_false (cfg : RateLimiterCfg) (s : LedgerState)
    (api : String) (u : Option Nat)
    (h : (check_and_consume cfg s api u).1 = false) :
    (check_and_consume cfg s api u).2 = s := by
  unfold check_and_consume at *
  cases hl : cfg.budget_limit with
  | none => simp [hl] at h
  | some L =>
      simp only [hl] at h ⊢
      by_cases hgt : s.total + effective_units cfg.api_costs api u > L
      · simp [hgt]
      · simp [hgt] at h

lemma check_and_consume_le_of_true (cfg : RateLimiterCfg) (s : LedgerState)
    (api : String) (u : Option Nat) (L : Nat) (hl : cfg.budget_limit = some L)
    (h : (check_and_consume cfg s api u).1 = true) :
    s.total + effective_units cfg.api_costs api u ≤ L := by
  unfold check_and_consume at h
  simp only [hl] at h
  by_cases hgt : s.total + effective_units cfg.api_costs api u > L
  · simp [hgt] at h
  · omega

/-- Strengthened invariant: starting from any store state, the units
consumed by a sequence of sequential calls never push the total past
`max L s.total` when the limit is `L`. -/
lemma total_add_consumedSum_le (cfg : RateLimiterCfg) (L : Nat)
    (hl : cfg.budget_limit = some L) :
    ∀ (calls : List (String × Option Nat)) (s : LedgerState),
      s.total + consumedSum cfg s calls ≤ max L s.total := by
  intro calls
  induction calls with
  | nil => intro s; simp [consumedSum]
  | cons c rest ih =>
      intro s
      obtain ⟨api, u⟩ := c
      show s.total +
        ((if (check_and_consume cfg s api u).1 then
            effective_units cfg.api_costs api u else 0) +
          consumedSum cfg (check_and_consume cfg s api u).2 rest) ≤
        max L s.total
      by_cases hr : (check_and_consume cfg s api u).1 = true
      · have hle := check_and_consume_le_of_true cfg s api u L hl hr
        have htot := check_and_consume_total_of_true cfg s api u hr
        have hrec := ih (check_and_consume cfg s api u).2
        rw [htot] at hrec
        simp only [hr, if_true]
        omega
      · have hfalse : (check_and_consume cfg s api u).1 = false := by
          simp at hr; exact hr
        have hsnd := check_and_consume_snd_of_false cfg s api u hfalse
        have hrec := ih (check_and_consume cfg s api u).2
        rw [hsnd] at hrec
        simp only [hfalse, Bool.false_eq_true, if_false]
        rw [hsnd]
        omega

/-- C1.  Quota invariant: with a weekly limit `L` installed via
`set_budget_limit(L)`, for every sequence of sequential
`check_and_consume` calls on one `(platform, iso_week)` bucket against a
reachable store, the sum of the units of the calls that returned `true`
never exceeds `L`; and any call that returns `false` leaves both the
per-operation counters and the total counter unchanged. -/
theorem quota_invariant_seq (cfg₀ : RateLimiterCfg) (L : Nat)
    (calls : List (String × Option Nat)) (s : LedgerState) :
    consumedSum (set_budget_limit cfg₀ L) s calls ≤ L ∧
    (∀ (api : String) (u : Option Nat),
      (check_and_consume (set_budget_limit cfg₀ L) s api u).1 = false →
      (check_and_consume (set_budget_limit cfg₀ L) s api u).2 = s) := by
  constructor
  · have h := total_add_consumedSum_le (set_budget_limit cfg₀ L) L rfl calls s
    rcases Nat.le_total s.total L with hle | hge
    · rw [Nat.max_eq_left hle] at h
      omega
    · -- total already at or above the limit: no call can succeed
      rw [Nat.max_eq_right hge] at h
      omega
  · intro api u h
    exact check_and_consume_snd_of_false _ s api u h

/-- Witness for C1 at concrete inputs: a two-call sequence under limit
100 consumes 80 ≤ 100 units, and a denied call at a full bucket mutates
nothing. -/
theorem quota_invariant_seq_witness :
    consumedSum (set_budget_limit (RedisRateLimiter.init "youtube" none) 100)
        ⟨0, []⟩ [("gemini_script", none), ("gemini_validate", none)] ≤ 100 ∧
    ((check_and_consume (set_budget_limit (RedisRateLimiter.init "youtube" none) 100)
        ⟨100, [("gemini_script", 100)]⟩ "gemini_script" none).1 = false ∧
      (check_and_consume (set_budget_limit (RedisRateLimiter.init "youtube" none) 100)
        ⟨100, [("gemini_script", 100)]⟩ "gemini_script" none).2 =
        ⟨100, [("gemini_script", 100)]⟩) := by
  refine ⟨(quota_invariant_seq (RedisRateLimiter.init "youtube" none) 100
      [("gemini_script", none), ("gemini_validate", none)] ⟨0, []⟩).1, ?_, ?_⟩
  · decide
  · exact (quota_invariant_seq (RedisRateLimiter.init "youtube" none) 100
      [] ⟨100, [("gemini_script", 100)]⟩).2 "gemini_script" none (by decide)

/-- The Bouncer of the spec's example scenario: platform `"youtube"`
with `set_budget_limit(100)`. -/
def scenarioCfg : RateLimiterCfg :=
  set_budget_limit (RedisRateLimiter.init "youtube" none) 100

/-- First `check_and_consume("gemini_script")` of the scenario, from an
empty week. -/
def scenarioStep1 : Bool × LedgerState :=
  check_and_consume scenarioCfg ⟨0, []⟩ "gemini_script" none

/-- Second `check_and_consume("gemini_script")` of the scenario. -/
def scenarioStep2 : Bool × LedgerState :=
  check_and_consume scenarioCfg scenarioStep1.2 "gemini_script" none

/-- Third `check_and_consume("gemini_script")` of the scenario. -/
def scenarioStep3 : Bool × LedgerState :=
  check_and_consume scenarioCfg scenarioStep2.2 "gemini_script" none

/-- C9.  The spec's example scenario: platform `"youtube"`,
`weekly_limit = 100`, operation `"gemini_script"` at its default cost of
50 units, starting from an empty week.  First call allows and leaves 50
remaining; second call allows and leaves 0; third call denies, consumes
nothing (store unchanged), and remaining stays 0. -/
theorem example_scenario_youtube_100 :
    scenarioStep1.1 = true ∧
    get_remaining scenarioCfg scenarioStep1.2 = 50 ∧
    scenarioStep2.1 = true ∧
    get_remaining scenarioCfg scenarioStep2.2 = 0 ∧
    scenarioStep3.1 = false ∧
    scenarioStep3.2 = scenarioStep2.2 ∧
    get_remaining scenarioCfg scenarioStep3.2 = 0 := by
  decide

/-- C10.  Implicit behaviour when no limit is configured: constructed
with `budget_limit = None` and with `set_budget_limit` never called,
`check_and_consume` on a reachable store skips the limit comparison,
still increments both the total counter and the per-operation counter by
the effective units, and returns `true` for every operation and unit
amount. -/
theorem unlimited_when_no_limit (platform : String) (s : LedgerState)
    (api : String) (units : Option Nat) :
    check_and_consume (RedisRateLimiter.init platform none) s api units =
      (true, consumeUnits s api
        (effective_units DEFAULT_API_COSTS api units)) ∧
    (check_and_consume (RedisRateLimiter.init platform none) s api units).2.total =
      s.total + effective_units DEFAULT_API_COSTS api units ∧
    apiCount (check_and_consume (RedisRateLimiter.init platform none) s api units).2 api =
      apiCount s api + effective_units DEFAULT_API_COSTS api units := by
  refine ⟨rfl, rfl, ?_⟩
  have h2 : (check_and_consume (RedisRateLimiter.init platform none) s api units).2 =
      consumeUnits s api (effective_units DEFAULT_API_COSTS api units) := rfl
  rw [h2]
  show lookup0 (bumpApi s.perApi api _) api = lookup0 s.perApi api + _
  exact lookup0_bumpApi s.perApi api _

/-! ## Concurrency model for `check_and_consume`

`check_and_consume` performs a `GET` on the total key, compares the read
value locally, and only then runs the pipelined `INCRBY`s.  Each caller
is therefore a two-phase operation: phase 1 atomically reads the total,
phase 2 atomically performs the local comparison and — when it passes —
the pipelined increments.  (Treating phase 2 as one atomic block is
generous to the code: a non-transactional Redis pipeline is not even
atomic against other clients; the race exhibited below exists a
fortiori.) -/

/-- Shared state of `n` concurrent callers racing on one bucket:
the Redis bucket, each caller's read value (`none` until its `GET`
executed), and each caller's result (`none` until it returned). -/
structure RaceState where
  store : LedgerState
  observed : List (Option Nat)
  results : List (Option Bool)
deriving DecidableEq, Repr

/-- Initial race state: empty week, no caller has run anything. -/
def raceInit (n : Nat) : RaceState :=
  ⟨⟨0, []⟩, List.replicate n none, List.replicate n none⟩

/-- Execute the next atomic phase of caller `i` (a no-op for a finished
or out-of-range caller).  Caller `i` requests `callers[i].2` units for
operation `callers[i].1`. -/
def raceStep (cfg : RateLimiterCfg) (callers : List (String × Nat))
    (st : RaceState) (i : Nat) : RaceState :=
  match callers[i]? with
  | none => st
  | some (api, u) =>
      match st.observed.getD i none with
      | none =>
          -- phase 1: GET total_key
          { st with observed := st.observed.set i (some st.store.total) }
      | some obs =>
          match st.results.getD i none with
          | some _ => st
          | none =>
              -- phase 2: local comparison, then pipelined INCRBYs
              match cfg.budget_limit with
              | some limit =>
                  if obs + u > limit then
                    { st with results := st.results.set i (some false) }
                  else
                    { st with
                        store := consumeUnits st.store api u
                        results := st.results.set i (some true) }
              | none =>
                  { st with
                      store := consumeUnits st.store api u
                      results := st.results.set i (some true) }

/-- Run the callers under an interleaving schedule (a list of caller
indices; each occurrence executes that caller's next atomic phase). -/
def runRace (cfg : RateLimiterCfg) (callers : List (String × Nat))
    (sched : List Nat) : RaceState :=
  sched.foldl (raceStep cfg callers) (raceInit callers.length)

/-- C2.  The check-then-act of `check_and_consume` is not atomic: with
`weekly_limit = 50` and two concurrent callers each requesting
`units = 50` (so `limit < 2 × units`), the interleaving in which both
callers execute their `GET` before either runs its pipelined increment
makes **both** calls return `true` and drives the total to 100 > 50 —
the claim's "exactly one returns true" fails.  Under the serial
schedule the code does behave as claimed (first `true`, second
`false`). -/
theorem race_check_then_act_not_atomic :
    50 < 2 * 50 ∧
    (runRace (set_budget_limit (RedisRateLimiter.init "youtube" none) 50)
        [("gemini_script", 50), ("gemini_script", 50)] [0, 1, 0, 1]).results =
      [some true, some true] ∧
    (runRace (set_budget_limit (RedisRateLimiter.init "youtube" none) 50)
        [("gemini_script", 50), ("gemini_script", 50)] [0, 1, 0, 1]).store.total = 100 ∧
    (runRace (set_budget_limit (RedisRateLimiter.init "youtube" none) 50)
        [("gemini_script", 50), ("gemini_script", 50)] [0, 0, 1, 1]).results =
      [some true, some false] := by
  decide

/-! ## Permissive degradation — the fallible paths of `check_and_consume`

The Redis client is `Option`al (`None` when the initial connection
failed); each Redis round-trip inside the `try` block may raise.  The
three round-trips of `check_and_consume` are the initial `GET` (executed
only when a limit is configured), the `pipeline().execute()`, and the
final logging `GET`.  Any exception is caught by the enclosing
`except`, which returns `True`; the model records in `raised` whether an
exception was caught, so "no exception propagates" is the totality of
the function together with `raised` never escaping. -/

/-- Which of the three Redis round-trips of one `check_and_consume`
call raise.  An unreachable backing store is the all-`true` value. -/
structure RedisFailures where
  failGet1 : Bool
  failPipe : Bool
  failGet2 : Bool
deriving DecidableEq, Repr

/-- Result of a fallible `check_and_consume` call: the returned boolean,
the client with its (possibly updated) bucket, and whether an exception
was raised and caught inside the call. -/
structure FallibleResult where
  allowed : Bool
  client : Option (RedisFailures × LedgerState)
  raised : Bool
deriving DecidableEq, Repr

/-- `RedisRateLimiter.check_and_consume` with its error handling: a
`None` client short-circuits to permissive `True`; otherwise the body
runs inside `try`, and any raising round-trip ends the call with the
`except` branch's `True`.  A raising `pipeline().execute()` is modelled
as applying no increments (the pipeline is sent as one batch); a raise
in the final logging `GET` happens after the increments applied. -/
def check_and_consume_fallible (cfg : RateLimiterCfg)
    (client : Option (RedisFailures × LedgerState))
    (api_name : String) (units : Option Nat) : FallibleResult :=
  let u := effective_units cfg.api_costs api_name units
  match client with
  | none => ⟨true, none, false⟩
  | some (f, s) =>
      match cfg.budget_limit with
      | some limit =>
          if f.failGet1 then ⟨true, some (f, s), true⟩
          else if s.total + u > limit then ⟨false, some (f, s), false⟩
          else if f.failPipe then ⟨true, some (f, s), true⟩
          else if f.failGet2 then ⟨true, some (f, consumeUnits s api_name u), true⟩
          else ⟨true, some (f, consumeUnits s api_name u), false⟩
      | none =>
          if f.failPipe then ⟨true, some (f, s), true⟩
          else if f.failGet2 then ⟨true, some (f, consumeUnits s api_name u), true⟩
          else ⟨true, some (f, consumeUnits s api_name u), false⟩

/-- C3.  Permissive degradation: with the client `None` at construction,
`check_and_consume` returns `true` and touches nothing; whenever any
Redis round-trip raises during a call, the exception is caught and the
call returns `true`; in particular a fully unreachable store (every
round-trip raising) always yields `true`.  No exception propagates: the
embedded function is total and the caught flag never escapes it. -/
theorem permissive_degradation (cfg : RateLimiterCfg) (f : RedisFailures)
    (s : LedgerState) (api : String) (units : Option Nat) :
    check_and_consume_fallible cfg none api units = ⟨true, none, false⟩ ∧
    ((check_and_consume_fallible cfg (some (f, s)) api units).raised = true →
      (check_and_consume_fallible cfg (some (f, s)) api units).allowed = true) ∧
    (check_and_consume_fallible cfg (some (⟨true, true, true⟩, s)) api units).allowed =
      true := by
  obtain ⟨g1, gp, g2⟩ := f
  refine ⟨rfl, ?_, ?_⟩
  · simp only [check_and_consume_fallible]
    cases hl : cfg.budget_limit with
    | none => cases gp <;> cases g2 <;> simp
    | some limit =>
        cases g1 with
        | true => simp
        | false =>
            by_cases hcmp :
                s.total + effective_units cfg.api_costs api units > limit
            · simp [hcmp]
            · cases gp <;> cases g2 <;> simp [hcmp]
  · simp only [check_and_consume_fallible]
    cases hl : cfg.budget_limit with
    | none => simp
    | some limit => simp

/-- Witness for C3 at concrete inputs: a call whose initial `GET` raises
is caught and allowed. -/
theorem permissive_degradation_witness :
    (check_and_consume_fallible
        (set_budget_limit (RedisRateLimiter.init "youtube" none) 100)
        (some (⟨true, false, false⟩, ⟨0, []⟩)) "gemini_script" none).raised = true ∧
    (check_and_consume_fallible
        (set_budget_limit (RedisRateLimiter.init "youtube" none) 100)
        (some (⟨true, false, false⟩, ⟨0, []⟩)) "gemini_script" none).allowed = true :=
  ⟨by decide,
    (permissive_degradation
        (set_budget_limit (RedisRateLimiter.init "youtube" none) 100)
        ⟨true, false, false⟩ ⟨0, []⟩ "gemini_script" none).2.1 (by decide)⟩

/-! ## RAG Manager — `database/rag_manager.py` (YouTube and X variants)

A row of the `rag_embeddings` table.  Vector components are modelled as
`ℚ`; ids as `Nat` (standing for the UUIDs / serial ids the code uses).
The pgvector `<=>` cosine-distance operator lives in the backing store,
not in this repository's code, so the search operations are parametric
in a distance function `dist`; `similarity = 1 - dist`. -/

/-- One row of `rag_embeddings`. -/
structure EmbRecord where
  id : Nat
  source_type : String
  source_id : Option Nat
  content_text : String
  emb : List ℚ
deriving DecidableEq, Repr

/-- One row of `feedback_log`. -/
structure FeedbackRecord where
  id : Nat
  script_id : Nat
  feedback_type : String
  feedback_text : String
  source : String
deriving DecidableEq, Repr

/-- The two tables touched by `store_feedback`. -/
structure RagDB where
  feedback : List FeedbackRecord
  embeddings : List EmbRecord
deriving DecidableEq, Repr

/-- The dimension-mismatch error raised by the YouTube
`RAGManager.store_embedding` (`ValueError("Embedding dimension
mismatch: expected ..., got ...")`). -/
structure DimensionMismatch where
  expected : Nat
  got : Nat
deriving DecidableEq, Repr

/-- YouTube `RAGManager.store_embedding`: validates
`len(embedding) == embedding_dimension` and raises before any SQL runs
on a mismatch; otherwise INSERTs the row.  The returned pair is
(result, table after the call). -/
def yt_store_embedding (embedding_dimension : Nat) (table : List EmbRecord)
    (source_type : String) (content_text : String) (embedding : List ℚ)
    (source_id : Option Nat) (record_id : Nat) :
    Except DimensionMismatch Nat × List EmbRecord :=
  if embedding.length ≠ embedding_dimension then
    (Except.error ⟨embedding_dimension, embedding.length⟩, table)
  else
    (Except.ok record_id,
      table ++ [⟨record_id, source_type, source_id, content_text, embedding⟩])

/-- `RAGManager.EMBEDDING_DIM` of the X variant. -/
def EMBEDDING_DIM : Nat := 768

/-- X `RAGManager.store_embedding`: on a length mismatch it logs an
error and returns `None` without executing any SQL; otherwise INSERTs
and returns the new id. -/
def x_store_embedding (table : List EmbRecord)
    (source_type : String) (content_text : String) (embedding : List ℚ)
    (source_id : Option Nat) (record_id : Nat) :
    Option Nat × List EmbRecord :=
  if embedding.length ≠ EMBEDDING_DIM then
    (none, table)
  else
    (some record_id,
      table ++ [⟨record_id, source_type, source_id, content_text, embedding⟩])

/-- C4.  Dimension validation: for every embedding vector whose length
differs from the configured dimension, `store_embedding` fails with a
dimension-mismatch error and leaves the embedding table exactly as it
was — in the YouTube variant by raising `ValueError` before the INSERT,
in the X variant by returning `None` before the INSERT. -/
theorem dimension_mismatch_writes_nothing (dim : Nat) (table xtable : List EmbRecord)
    (st ct : String) (embedding : List ℚ) (sid : Option Nat) (rid : Nat) :
    (embedding.length ≠ dim →
      yt_store_embedding dim table st ct embedding sid rid =
        (Except.error ⟨dim, embedding.length⟩, table)) ∧
    (embedding.length ≠ EMBEDDING_DIM →
      x_store_embedding xtable st ct embedding sid rid = (none, xtable)) := by
  constructor
  · intro h
    unfold yt_store_embedding
    simp [h]
  · intro h
    unfold x_store_embedding
    simp [h]

/-- Witness for C4 at a concrete input: a 3-component vector against
dimension 768 is rejected by both variants with no write. -/
theorem dimension_mismatch_writes_nothing_witness :
    ((0 : ℚ) :: 0 :: 0 :: []).length ≠ 768 ∧
    yt_store_embedding 768 [] "script" "T" ((0 : ℚ) :: 0 :: 0 :: []) none 7 =
      (Except.error ⟨768, 3⟩, []) ∧
    x_store_embedding [] "script" "T" ((0 : ℚ) :: 0 :: 0 :: []) none 7 =
      (none, []) :=
  ⟨by decide,
    (dimension_mismatch_writes_nothing 768 [] [] "script" "T"
        ((0 : ℚ) :: 0 :: 0 :: []) none 7).1 (by decide),
    (dimension_mismatch_writes_nothing 768 [] [] "script" "T"
        ((0 : ℚ) :: 0 :: 0 :: []) none 7).2 (by decide)⟩

/-- YouTube `RAGManager.store_feedback`: first INSERTs the feedback row
through `execute_query` — whose `get_connection` context manager
commits that transaction on exit — and only then calls
`store_embedding`, a second, independent transaction.  The returned
pair is (result, database after the call); a raise in `store_embedding`
leaves the already committed feedback row in place. -/
def yt_store_feedback (embedding_dimension : Nat) (db : RagDB)
    (script_id : Nat) (feedback_type : String) (feedback_text : String)
    (embedding : List ℚ) (source : String) (feedback_id emb_id : Nat) :
    Except DimensionMismatch Nat × RagDB :=
  -- INSERT INTO feedback_log ... (committed by its own connection)
  let db1 : RagDB :=
    { db with feedback :=
        db.feedback ++ [⟨feedback_id, script_id, feedback_type, feedback_text, source⟩] }
  -- store_embedding(...): separate transaction; ValueError propagates
  match yt_store_embedding embedding_dimension db1.embeddings "feedback"
      feedback_text embedding (some feedback_id) emb_id with
  | (Except.error e, tbl) => (Except.error e, { db1 with embeddings := tbl })
  | (Except.ok _, tbl) => (Except.ok feedback_id, { db1 with embeddings := tbl })

/-- C6.  `store_feedback` is not atomic across its two writes: with the
configured dimension 768 and a 3-component embedding vector, the
feedback INSERT commits in its own transaction, then `store_embedding`
raises the dimension error — the call fails, yet the database is left
with the feedback row persisted and no associated embedding row, the
inconsistent state the claim rules out. -/
theorem store_feedback_inconsistent_on_dim_error :
    yt_store_feedback 768 ⟨[], []⟩ 1 "note" "T" ((0 : ℚ) :: 0 :: 0 :: [])
        "slack" 10 11 =
      (Except.error ⟨768, 3⟩, ⟨[⟨10, 1, "note", "T", "slack"⟩], []⟩) := by
  rfl

/-! ## Similarity search and duplicate detection

`search_similar` builds a SQL query over `rag_embeddings`:
`WHERE [source_type = %s AND] <threshold comparison on 1 - (embedding
<=> query)> ORDER BY embedding <=> query ASC LIMIT top_k`, returning
rows together with their `similarity = 1 - (embedding <=> query)`
column.  The `<=>` cosine-distance operator is evaluated by the backing
store, so the embedding is parametric in `dist`. -/

/-- The optional `source_type = %s` clause. -/
def matchesType (source_type : Option String) (r : EmbRecord) : Bool :=
  match source_type with
  | some s => decide (r.source_type = s)
  | none => true

/-- The `ORDER BY embedding <=> query ASC` comparison on result rows. -/
def distLe (dist : List ℚ → List ℚ → ℚ) (query_embedding : List ℚ)
    (a b : EmbRecord × ℚ) : Prop :=
  dist a.1.emb query_embedding ≤ dist b.1.emb query_embedding

instance (dist : List ℚ → List ℚ → ℚ) (q : List ℚ) :
    DecidableRel (distLe dist q) :=
  fun _ _ => inferInstanceAs (Decidable (_ ≤ _))

instance (dist : List ℚ → List ℚ → ℚ) (q : List ℚ) :
    IsTotal (EmbRecord × ℚ) (distLe dist q) :=
  ⟨fun _ _ => le_total _ _⟩

instance (dist : List ℚ → List ℚ → ℚ) (q : List ℚ) :
    IsTrans (EmbRecord × ℚ) (distLe dist q) :=
  ⟨fun _ _ _ => le_trans⟩

/-- Shared SQL shape of both `search_similar` variants: filter the
table by the `WHERE` clause `keep`, attach the `similarity` column,
order by distance ascending (any sort realizes `ORDER BY`; ties are
unspecified in SQL), and `LIMIT top_k`. -/
def sql_search (dist : List ℚ → List ℚ → ℚ) (table : List EmbRecord)
    (query_embedding : List ℚ) (keep : EmbRecord → Bool) (top_k : Nat) :
    List (EmbRecord × ℚ) :=
  (((table.filter keep).map
      (fun r => (r, 1 - dist r.emb query_embedding))).insertionSort
    (distLe dist query_embedding)).take top_k

/-- YouTube `RAGManager.search_similar`: threshold clause
`1 - (embedding <=> query) >= similarity_threshold` (inclusive). -/
def yt_search_similar (dist : List ℚ → List ℚ → ℚ) (table : List EmbRecord)
    (query_embedding : List ℚ) (source_type : Option String)
    (top_k : Nat) (similarity_threshold : ℚ) : List (EmbRecord × ℚ) :=
  sql_search dist table query_embedding
    (fun r => matchesType source_type r &&
      decide (similarity_threshold ≤ 1 - dist r.emb query_embedding))
    top_k

/-- X `RAGManager.search_similar`: threshold clause
`1 - (embedding <=> query) > threshold` (strict). -/
def x_search_similar (dist : List ℚ → List ℚ → ℚ) (table : List EmbRecord)
    (query_embedding : List ℚ) (source_type : Option String)
    (top_k : Nat) (threshold : ℚ) : List (EmbRecord × ℚ) :=
  sql_search dist table query_embedding
    (fun r => matchesType source_type r &&
      decide (threshold < 1 - dist r.emb query_embedding))
    top_k

/-- YouTube `RAGManager.check_duplicate`: `search_similar` scoped to
`source_type="script"` with `top_k=1`; returns the duplicate row if any,
else `None`. -/
def yt_check_duplicate (dist : List ℚ → List ℚ → ℚ) (table : List EmbRecord)
    (query_embedding : List ℚ) (threshold : ℚ) : Option (EmbRecord × ℚ) :=
  (yt_search_similar dist table query_embedding (some "script") 1 threshold).head?

/-- X `RAGManager.check_duplicate`: unscoped `search_similar` with
`top_k=1`; returns whether any row came back. -/
def x_check_duplicate (dist : List ℚ → List ℚ → ℚ) (table : List EmbRecord)
    (query_embedding : List ℚ) (threshold : ℚ) : Bool :=
  decide (0 < (x_search_similar dist table query_embedding none 1 threshold).length)

lemma mem_sql_search (dist : List ℚ → List ℚ → ℚ) (table : List EmbRecord)
    (q : List ℚ) (keep : EmbRecord → Bool) (k : Nat) (p : EmbRecord × ℚ)
    (hp : p ∈ sql_search dist table q keep k) :
    p.1 ∈ table ∧ keep p.1 = true ∧ p.2 = 1 - dist p.1.emb q := by
  have h1 : p ∈ (table.filter keep).map (fun r => (r, 1 - dist r.emb q)) := by
    have h2 := List.mem_of_mem_take hp
    rwa [List.mem_insertionSort] at h2
  obtain ⟨r, hr, hre⟩ := List.mem_map.1 h1
  obtain ⟨hrt, hrk⟩ := List.mem_filter.1 hr
  subst hre
  exact ⟨hrt, hrk, rfl⟩

lemma sorted_sql_search (dist : List ℚ → List ℚ → ℚ) (table : List EmbRecord)
    (q : List ℚ) (keep : EmbRecord → Bool) (k : Nat) :
    (sql_search dist table q keep k).Pairwise (fun a b => b.2 ≤ a.2) := by
  apply List.Pairwise.sublist (List.take_sublist _ _)
  have hsorted :
      (((table.filter keep).map (fun r => (r, 1 - dist r.emb q))).insertionSort
        (distLe dist q)).Pairwise (distLe dist q) :=
    List.sorted_insertionSort (distLe dist q) _
  apply hsorted.imp_of_mem
  intro a b ha hb hab
  rw [List.mem_insertionSort] at ha hb
  obtain ⟨ra, _, hra⟩ := List.mem_map.1 ha
  obtain ⟨rb, _, hrb⟩ := List.mem_map.1 hb
  unfold distLe at hab
  subst hra; subst hrb
  simp only
  linarith

lemma length_sql_search (dist : List ℚ → List ℚ → ℚ) (table : List EmbRecord)
    (q : List ℚ) (keep : EmbRecord → Bool) (k : Nat) :
    (sql_search dist table q keep k).length ≤ k := by
  unfold sql_search
  rw [List.length_take]
  exact Nat.min_le_left _ _

lemma sql_search_ne_nil (dist : List ℚ → List ℚ → ℚ) (table : List EmbRecord)
    (q : List ℚ) (keep : EmbRecord → Bool) (k : Nat) (hk : k ≠ 0)
    (r : EmbRecord) (hr : r ∈ table) (hkeep : keep r = true) :
    sql_search dist table q keep k ≠ [] := by
  intro hnil
  unfold sql_search at hnil
  rcases List.take_eq_nil_iff.1 hnil with h | h
  · exact hk h
  · have : (r, 1 - dist r.emb q) ∈
        ((table.filter keep).map (fun s => (s, 1 - dist s.emb q))).insertionSort
          (distLe dist q) := by
      rw [List.mem_insertionSort]
      exact List.mem_map_of_mem _ (List.mem_filter.2 ⟨hr, hkeep⟩)
    rw [h] at this
    exact List.not_mem_nil _ this

lemma sql_search_nil_of_none_kept (dist : List ℚ → List ℚ → ℚ)
    (table : List EmbRecord) (q : List ℚ) (keep : EmbRecord → Bool) (k : Nat)
    (h : ∀ r ∈ table, keep r = false) :
    sql_search dist table q keep k = [] := by
  unfold sql_search
  have hfilter : table.filter keep = [] := by
    rw [List.filter_eq_nil_iff]
    intro r hr
    simp [h r hr]
  rw [hfilter]
  simp

/-- C8.  `search_similar` contract, for both variants and any distance
operator the backing store supplies: every returned row carries
`similarity = 1 - dist` at least the threshold and (when the filter is
given) the requested `source_type`; rows come back ordered by
non-increasing similarity (distance ascending); at most `top_k` rows
are returned; and the empty table yields the empty list — a valid
return value, not an error. -/
theorem search_similar_contract (dist : List ℚ → List ℚ → ℚ)
    (table : List EmbRecord) (q : List ℚ) (source_type : Option String)
    (k : Nat) (t : ℚ) :
    (∀ p ∈ yt_search_similar dist table q source_type k t,
      t ≤ p.2 ∧ p.2 = 1 - dist p.1.emb q ∧
        ∀ s, source_type = some s → p.1.source_type = s) ∧
    (yt_search_similar dist table q source_type k t).Pairwise
      (fun a b => b.2 ≤ a.2) ∧
    (yt_search_similar dist table q source_type k t).length ≤ k ∧
    yt_search_similar dist [] q source_type k t = [] ∧
    (∀ p ∈ x_search_similar dist table q source_type k t,
      t ≤ p.2 ∧ p.2 = 1 - dist p.1.emb q ∧
        ∀ s, source_type = some s → p.1.source_type = s) ∧
    (x_search_similar dist table q source_type k t).Pairwise
      (fun a b => b.2 ≤ a.2) ∧
    (x_search_similar dist table q source_type k t).length ≤ k ∧
    x_search_similar dist [] q source_type k t = [] := by
  refine ⟨?_, sorted_sql_search dist table q _ k, length_sql_search dist table q _ k,
    sql_search_nil_of_none_kept dist [] q _ k (by intro r hr; cases hr), ?_,
    sorted_sql_search dist table q _ k, length_sql_search dist table q _ k,
    sql_search_nil_of_none_kept dist [] q _ k (by intro r hr; cases hr)⟩
  · intro p hp
    obtain ⟨hmem, hkeep, hsim⟩ := mem_sql_search dist table q _ k p hp
    rw [Bool.and_eq_true] at hkeep
    refine ⟨?_, hsim, ?_⟩
    · rw [hsim]
      exact of_decide_eq_true hkeep.2
    · intro s hs
      subst hs
      simpa [matchesType] using hkeep.1
  · intro p hp
    obtain ⟨hmem, hkeep, hsim⟩ := mem_sql_search dist table q _ k p hp
    rw [Bool.and_eq_true] at hkeep
    refine ⟨?_, hsim, ?_⟩
    · rw [hsim]
      exact le_of_lt (of_decide_eq_true hkeep.2)
    · intro s hs
      subst hs
      simpa [matchesType] using hkeep.1

/-- Witness for C8 at concrete inputs: the contract applied to a one-row
table under the distance operator that maps everything to distance 0 —
the single row passes the 1/2 threshold, carries `source_type "script"`,
and the bounds hold. -/
theorem search_similar_contract_witness :
    ((1 : ℚ)/2 ≤ ((⟨0, "script", none, "T", []⟩ : EmbRecord), (1 : ℚ)).2 ∧
      ((⟨0, "script", none, "T", []⟩ : EmbRecord), (1 : ℚ)).1.source_type =
        "script") ∧
    (yt_search_similar (fun _ _ => 0) [⟨0, "script", none, "T", []⟩] []
      (some "script") 5 (1/2)).length ≤ 5 := by
  have h := search_similar_contract (fun _ _ => 0)
    [⟨0, "script", none, "T", []⟩] [] (some "script") 5 (1/2)
  have hres : yt_search_similar (fun _ _ => 0) [⟨0, "script", none, "T", []⟩] []
      (some "script") 5 (1/2) =
      [((⟨0, "script", none, "T", []⟩ : EmbRecord), (1 : ℚ))] := by
    unfold yt_search_similar sql_search
    have hle : ((1 : ℚ)/2 ≤ 1 - 0) := by norm_num
    simp [matchesType, hle]
    norm_num
  have hmem : ((⟨0, "script", none, "T", []⟩ : EmbRecord), (1 : ℚ)) ∈
      yt_search_similar (fun _ _ => 0) [⟨0, "script", none, "T", []⟩] []
        (some "script") 5 (1/2) := by
    rw [hres]
    exact List.mem_singleton.2 rfl
  have h1 := h.1 _ hmem
  exact ⟨⟨h1.1, h1.2.2 "script" rfl⟩, h.2.2.1⟩

/-! ## Duplicate detection (C5)

For the concrete instances below the pgvector `<=>` operator is
instantiated with true cosine distance
`1 - ⟨u,v⟩ / (‖u‖·‖v‖)`.  `Rat.sqrt` is the exact square root on
perfect squares; every concrete vector used here has a perfect-square
norm, so on them `cosine_distance` is exactly the real cosine
distance. -/

/-- Dot product of two vectors. -/
def dotQ (u v : List ℚ) : ℚ :=
  (List.zipWith (· * ·) u v).sum

/-- Squared Euclidean norm. -/
def normSq (v : List ℚ) : ℚ :=
  dotQ v v

/-- pgvector's `<=>` cosine distance: `1 - cos θ`. -/
def cosine_distance (u v : List ℚ) : ℚ :=
  1 - dotQ u v / (Rat.sqrt (normSq u) * Rat.sqrt (normSq v))

/-- The query vector of the concrete instances: a unit vector. -/
def ceQueryVec : List ℚ := [1, 0, 0, 0, 0]

/-- Stored vector with cosine similarity exactly 9/10 to `ceQueryVec`
(‖·‖ = 20, dot product 18). -/
def ceVec90 : List ℚ := [18, 6, 6, 2, 0]

/-- Stored vector with cosine similarity exactly 17/20 = 0.85 to
`ceQueryVec` (‖·‖ = 20, dot product 17). -/
def ceVec85 : List ℚ := [17, 7, 6, 5, 1]

/-- Stored vector orthogonal to `ceQueryVec` (similarity 0). -/
def ceVecLow : List ℚ := [0, 20, 0, 0, 0]

lemma sim_ceVec90 : 1 - cosine_distance ceVec90 ceQueryVec = 9/10 := by
  have hn1 : Rat.sqrt (normSq ceVec90) = 20 := by
    have h : normSq ceVec90 = 20 * 20 := by
      norm_num [normSq, dotQ, ceVec90, List.zipWith]
    rw [h, Rat.sqrt_eq]
    norm_num
  have hn2 : Rat.sqrt (normSq ceQueryVec) = 1 := by
    have h : normSq ceQueryVec = 1 * 1 := by
      norm_num [normSq, dotQ, ceQueryVec, List.zipWith]
    rw [h, Rat.sqrt_eq]
    norm_num
  have hdot : dotQ ceVec90 ceQueryVec = 18 := by
    norm_num [dotQ, ceVec90, ceQueryVec, List.zipWith]
  unfold cosine_distance
  rw [hn1, hn2, hdot]
  norm_num

lemma sim_ceVec85 : 1 - cosine_distance ceVec85 ceQueryVec = 17/20 := by
  have hn1 : Rat.sqrt (normSq ceVec85) = 20 := by
    have h : normSq ceVec85 = 20 * 20 := by
      norm_num [normSq, dotQ, ceVec85, List.zipWith]
    rw [h, Rat.sqrt_eq]
    norm_num
  have hn2 : Rat.sqrt (normSq ceQueryVec) = 1 := by
    have h : normSq ceQueryVec = 1 * 1 := by
      norm_num [normSq, dotQ, ceQueryVec, List.zipWith]
    rw [h, Rat.sqrt_eq]
    norm_num
  have hdot : dotQ ceVec85 ceQueryVec = 17 := by
    norm_num [dotQ, ceVec85, ceQueryVec, List.zipWith]
  unfold cosine_distance
  rw [hn1, hn2, hdot]
  norm_num

lemma sim_ceVecLow : 1 - cosine_distance ceVecLow ceQueryVec = 0 := by
  have hn1 : Rat.sqrt (normSq ceVecLow) = 20 := by
    have h : normSq ceVecLow = 20 * 20 := by
      norm_num [normSq, dotQ, ceVecLow, List.zipWith]
    rw [h, Rat.sqrt_eq]
    norm_num
  have hn2 : Rat.sqrt (normSq ceQueryVec) = 1 := by
    have h : normSq ceQueryVec = 1 * 1 := by
      norm_num [normSq, dotQ, ceQueryVec, List.zipWith]
    rw [h, Rat.sqrt_eq]
    norm_num
  have hdot : dotQ ceVecLow ceQueryVec = 0 := by
    norm_num [dotQ, ceVecLow, ceQueryVec, List.zipWith]
  unfold cosine_distance
  rw [hn1, hn2, hdot]
  norm_num

lemma yt_check_duplicate_none_of_no_script (dist : List ℚ → List ℚ → ℚ)
    (table : List EmbRecord) (q : List ℚ) (t : ℚ)
    (h : ∀ r ∈ table, r.source_type ≠ "script") :
    yt_check_duplicate dist table q t = none := by
  unfold yt_check_duplicate yt_search_similar
  rw [List.head?_eq_none_iff]
  apply sql_search_nil_of_none_kept
  intro r hr
  simp [matchesType, h r hr]

lemma x_check_duplicate_false_of_none_above (dist : List ℚ → List ℚ → ℚ)
    (table : List EmbRecord) (q : List ℚ) (t : ℚ)
    (h : ∀ r ∈ table, 1 - dist r.emb q ≤ t) :
    x_check_duplicate dist table q t = false := by
  unfold x_check_duplicate x_search_similar
  rw [sql_search_nil_of_none_kept dist table q _ 1 ?_]
  · simp
  · intro r hr
    have : ¬ t < 1 - dist r.emb q := not_lt.2 (h r hr)
    simp [matchesType, this]

/-- C5 counterexample.  The claim as stated fails in both
implementations: the YouTube `check_duplicate` only scans rows with
`source_type = "script"`, so a stored record of type `"feedback"` with
cosine similarity 9/10 ≥ 0.85 to the query yields no match; the X
`check_duplicate` filters with strict `>`, so a stored record with
cosine similarity exactly 17/20 = 0.85 yields no match although the
claim requires a positive match at similarity ≥ 0.85. -/
theorem check_duplicate_claim_counterexample :
    ((85/100 : ℚ) ≤ 1 - cosine_distance ceVec90 ceQueryVec ∧
      yt_check_duplicate cosine_distance [⟨0, "feedback", none, "T", ceVec90⟩]
        ceQueryVec (85/100) = none) ∧
    ((85/100 : ℚ) ≤ 1 - cosine_distance ceVec85 ceQueryVec ∧
      x_check_duplicate cosine_distance [⟨1, "script", none, "U", ceVec85⟩]
        ceQueryVec (85/100) = false) := by
  refine ⟨⟨?_, ?_⟩, ⟨?_, ?_⟩⟩
  · rw [sim_ceVec90]; norm_num
  · apply yt_check_duplicate_none_of_no_script
    intro r hr
    rw [List.mem_singleton] at hr
    subst hr
    decide
  · rw [sim_ceVec85]; norm_num
  · apply x_check_duplicate_false_of_none_above
    intro r hr
    rw [List.mem_singleton] at hr
    subst hr
    show 1 - cosine_distance ceVec85 ceQueryVec ≤ 85/100
    rw [sim_ceVec85]
    norm_num

/-- C5, amended.  After `store_embedding(T, E)` has persisted its
record, `check_duplicate(E′)` at the default threshold 0.85 behaves as
follows, for any distance operator the backing store supplies
(similarity = `1 - dist`).  YouTube variant: a positive match (the
duplicate record) is returned whenever the record was stored with
`source_type = "script"` and its similarity is ≥ 0.85 — records of
other source types are never considered; no match is returned when
every stored record's similarity is below 0.85.  X variant: a positive
match is returned whenever some stored record's similarity is strictly
above 0.85, and no match when every stored record's similarity is at
most 0.85 (in particular, similarity exactly 0.85 yields no match). -/
theorem check_duplicate_amended (dist : List ℚ → List ℚ → ℚ)
    (table : List EmbRecord) (q : List ℚ) (rec : EmbRecord) :
    (rec ∈ table → rec.source_type = "script" →
      (85/100 : ℚ) ≤ 1 - dist rec.emb q →
      yt_check_duplicate dist table q (85/100) ≠ none) ∧
    ((∀ r ∈ table, 1 - dist r.emb q < 85/100) →
      yt_check_duplicate dist table q (85/100) = none) ∧
    (rec ∈ table → (85/100 : ℚ) < 1 - dist rec.emb q →
      x_check_duplicate dist table q (85/100) = true) ∧
    ((∀ r ∈ table, 1 - dist r.emb q ≤ 85/100) →
      x_check_duplicate dist table q (85/100) = false) := by
  refine ⟨?_, ?_, ?_, ?_⟩
  · intro hmem hscript hsim
    unfold yt_check_duplicate yt_search_similar
    rw [Ne, List.head?_eq_none_iff]
    exact sql_search_ne_nil dist table q _ 1 (by decide) rec hmem
      (by simp [matchesType, hscript, hsim])
  · intro h
    unfold yt_check_duplicate yt_search_similar
    rw [List.head?_eq_none_iff]
    apply sql_search_nil_of_none_kept
    intro r hr
    have : ¬ (85/100 : ℚ) ≤ 1 - dist r.emb q := not_le.2 (h r hr)
    simp [matchesType, this]
  · intro hmem hsim
    unfold x_check_duplicate
    apply decide_eq_true
    apply List.length_pos.2
    exact sql_search_ne_nil dist table q _ 1 (by decide) rec hmem
      (by simp [matchesType, hsim])
  · exact x_check_duplicate_false_of_none_above dist table q _

/-- Witness for the amended C5 at concrete inputs: under true cosine
distance, a `"script"` record at similarity 9/10 is matched by both
variants, and a record at similarity 0 is matched by neither. -/
theorem check_duplicate_amended_witness :
    yt_check_duplicate cosine_distance [⟨0, "script", none, "T", ceVec90⟩]
      ceQueryVec (85/100) ≠ none ∧
    yt_check_duplicate cosine_distance [⟨2, "script", none, "V", ceVecLow⟩]
      ceQueryVec (85/100) = none ∧
    x_check_duplicate cosine_distance [⟨0, "script", none, "T", ceVec90⟩]
      ceQueryVec (85/100) = true ∧
    x_check_duplicate cosine_distance [⟨2, "script", none, "V", ceVecLow⟩]
      ceQueryVec (85/100) = false := by
  refine ⟨?_, ?_, ?_, ?_⟩
  · exact (check_duplicate_amended cosine_distance
      [⟨0, "script", none, "T", ceVec90⟩] ceQueryVec
      ⟨0, "script", none, "T", ceVec90⟩).1
      (List.mem_singleton.2 rfl) rfl
      (by show (85/100 : ℚ) ≤ 1 - cosine_distance ceVec90 ceQueryVec
          rw [sim_ceVec90]; norm_num)
  · exact (check_duplicate_amended cosine_distance
      [⟨2, "script", none, "V", ceVecLow⟩] ceQueryVec
      ⟨2, "script", none, "V", ceVecLow⟩).2.1
      (by intro r hr
          rw [List.mem_singleton] at hr
          subst hr
          show 1 - cosine_distance ceVecLow ceQueryVec < 85/100
          rw [sim_ceVecLow]
          norm_num)
  · exact (check_duplicate_amended cosine_distance
      [⟨0, "script", none, "T", ceVec90⟩] ceQueryVec
      ⟨0, "script", none, "T", ceVec90⟩).2.2.1
      (List.mem_singleton.2 rfl)
      (by show (85/100 : ℚ) < 1 - cosine_distance ceVec90 ceQueryVec
          rw [sim_ceVec90]; norm_num)
  · exact (check_duplicate_amended cosine_distance
      [⟨2, "script", none, "V", ceVecLow⟩] ceQueryVec
      ⟨2, "script", none, "V", ceVecLow⟩).2.2.2
      (by intro r hr
          rw [List.mem_singleton] at hr
          subst hr
          show 1 - cosine_distance ceVecLow ceQueryVec ≤ 85/100
          rw [sim_ceVecLow]
          norm_num)

/-! ## Budget Config Loader — `services/budget_reader.py`

`BudgetReader.load()` resolves `budgets.json` through the chain
in-process memo (`_config_cache`) → Redis cache (`CACHE_TTL` = 1h) →
Nextcloud WebDAV → local file → `FALLBACK_CONFIG`.  Every private
loader catches its own exceptions and returns `None` on failure, and
`_cache_to_redis` swallows caching errors, so `load` is total.  The
world models the environment: whether the Redis client exists (a cache
entry being present models "within the TTL window"; expiry is its
absence), whether the Nextcloud fetch succeeds (reachable, HTTP 200,
password configured, body parses), and whether the local file exists
and parses. -/

/-- One platform's entry in `budgets.json`. -/
structure PlatformBudget where
  weekly_units : Nat
  priority : Nat
  enabled : Bool
deriving DecidableEq, Repr

/-- The `budgets.json` document. -/
structure BudgetConfig where
  version : Nat
  total_weekly_units : Nat
  platforms : List (String × PlatformBudget)
  api_costs : List (String × Nat)
  warn_at_percent : Nat
  critical_at_percent : Nat
deriving DecidableEq, Repr

/-- `FALLBACK_CONFIG` from `budget_reader.py`. -/
def FALLBACK_CONFIG : BudgetConfig :=
  { version := 1
    total_weekly_units := 5000
    platforms :=
      [("youtube", ⟨2000, 1, true⟩),
       ("tiktok", ⟨1000, 2, true⟩),
       ("instagram", ⟨1000, 3, true⟩),
       ("x", ⟨1000, 4, true⟩)]
    api_costs :=
      [("gemini_script", 50),
       ("gemini_validate", 30),
       ("gemini_metadata", 20),
       ("gemini_clip_plan", 15),
       ("gemini_planner", 25),
       ("gemini_embedding", 5),
       ("elevenlabs_per_minute", 100),
       ("rawg_fetch", 2),
       ("serpapi_search", 10)]
    warn_at_percent := 80
    critical_at_percent := 95 }

namespace BudgetReader

/-- The reader's in-process state: `_config_cache`. -/
structure State where
  config_cache : Option BudgetConfig
deriving DecidableEq, Repr

/-- The environment of one `load()` call. -/
structure World where
  redisAvail : Bool
  redisCache : Option BudgetConfig
  nextcloud : Option BudgetConfig
  localFile : Option BudgetConfig
deriving DecidableEq, Repr

/-- What a `load()` call produced and did: the returned document, the
reader state and world afterwards, and whether the Nextcloud fetch /
the local file read were attempted. -/
structure LoadResult where
  config : BudgetConfig
  state : State
  world : World
  fetched_remote : Bool
  read_local : Bool
deriving DecidableEq, Repr

/-- `_load_from_redis`: `None` when the client is absent, the cached
entry otherwise (a miss or a Redis error reads as `None`). -/
def _load_from_redis (w : World) : Option BudgetConfig :=
  if w.redisAvail then w.redisCache else none

/-- `_cache_to_redis`: re-populate the Redis cache with TTL; a missing
client or a Redis error leaves the world unchanged. -/
def _cache_to_redis (w : World) (c : BudgetConfig) : World :=
  if w.redisAvail then { w with redisCache := some c } else w

/-- `BudgetReader.load`: memo → Redis cache → Nextcloud (re-populating
the cache on success) → local file (re-populating the cache on
success) → `FALLBACK_CONFIG`.  Total by construction: no tier throws. -/
def load (st : State) (w : World) : LoadResult :=
  match st.config_cache with
  | some c => ⟨c, st, w, false, false⟩
  | none =>
      match _load_from_redis w with
      | some c => ⟨c, ⟨some c⟩, w, false, false⟩
      | none =>
          match w.nextcloud with
          | some c => ⟨c, ⟨some c⟩, _cache_to_redis w c, true, false⟩
          | none =>
              match w.localFile with
              | some c => ⟨c, ⟨some c⟩, _cache_to_redis w c, true, true⟩
              | none => ⟨FALLBACK_CONFIG, ⟨some FALLBACK_CONFIG⟩, w, true, true⟩

/-- A memo hit returns the memoized document and performs nothing. -/
lemma load_of_memo (st : State) (w : World) (c : BudgetConfig)
    (h : st.config_cache = some c) :
    load st w = ⟨c, st, w, false, false⟩ := by
  unfold load
  rw [h]

/-- Every `load` leaves the memo holding the document it returned. -/
lemma load_memo_filled (st : State) (w : World) :
    (load st w).state.config_cache = some ((load st w).config) := by
  unfold load
  cases hm : st.config_cache with
  | some c0 => exact hm
  | none =>
      cases hr : _load_from_redis w with
      | some c1 => rfl
      | none =>
          cases hnc : w.nextcloud with
          | some c2 => rfl
          | none =>
              cases hlf : w.localFile with
              | some c3 => rfl
              | none => rfl

end BudgetReader

/-- C7.  Config fallback chain.  With a fresh reader (`_config_cache`
empty), `load()` resolves in the order Redis cache → Nextcloud → local
file → hardcoded default, a failed tier falling through to the next;
the hardcoded default makes total failure impossible (`load` is a total
function — no combination of tier availabilities throws).  A successful
resolution at tier 2 or tier 3 re-populates the tier-1 cache whenever
the cache store is reachable.  And after any `load`, a second `load`
within the TTL window returns the identical document while attempting
neither the remote fetch nor the file read. -/
theorem budget_load_fallback_chain (w : BudgetReader.World)
    (c c' c'' : BudgetConfig) (st : BudgetReader.State) :
    ((BudgetReader._load_from_redis w = some c →
        (BudgetReader.load ⟨none⟩ w).config = c) ∧
      (BudgetReader._load_from_redis w = none → w.nextcloud = some c' →
        (BudgetReader.load ⟨none⟩ w).config = c') ∧
      (BudgetReader._load_from_redis w = none → w.nextcloud = none →
        w.localFile = some c'' → (BudgetReader.load ⟨none⟩ w).config = c'') ∧
      (BudgetReader._load_from_redis w = none → w.nextcloud = none →
        w.localFile = none →
        (BudgetReader.load ⟨none⟩ w).config = FALLBACK_CONFIG)) ∧
    (w.redisAvail = true → BudgetReader._load_from_redis w = none →
      ((w.nextcloud = some c' →
          (BudgetReader.load ⟨none⟩ w).world.redisCache = some c') ∧
        (w.nextcloud = none → w.localFile = some c'' →
          (BudgetReader.load ⟨none⟩ w).world.redisCache = some c''))) ∧
    (BudgetReader.load (BudgetReader.load st w).state
        (BudgetReader.load st w).world =
      ⟨(BudgetReader.load st w).config, (BudgetReader.load st w).state,
        (BudgetReader.load st w).world, false, false⟩) := by
  refine ⟨⟨?_, ?_, ?_, ?_⟩, ?_, ?_⟩
  · intro h
    unfold BudgetReader.load
    rw [h]
  · intro h hnc
    unfold BudgetReader.load
    rw [h, hnc]
  · intro h hnc hlf
    unfold BudgetReader.load
    rw [h, hnc, hlf]
  · intro h hnc hlf
    unfold BudgetReader.load
    rw [h, hnc, hlf]
  · intro hra h
    constructor
    · intro hnc
      unfold BudgetReader.load
      rw [h, hnc]
      simp [BudgetReader._cache_to_redis, hra]
    · intro hnc hlf
      unfold BudgetReader.load
      rw [h, hnc, hlf]
      simp [BudgetReader._cache_to_redis, hra]
  · -- after any load the memo is filled, so the second load is a pure
    -- memo hit: same document, same state and world, nothing fetched
    exact BudgetReader.load_of_memo _ _ _ (BudgetReader.load_memo_filled st w)

/-- Witness for C7 at concrete inputs: the spec's scenario — remote
store failing, Redis cache empty but reachable, local file present —
returns the local file's document, re-populates the cache, and a second
load returns the same document with no further fetch. -/
theorem budget_load_fallback_chain_witness :
    (BudgetReader.load ⟨none⟩ ⟨true, none, none, some FALLBACK_CONFIG⟩).config =
      FALLBACK_CONFIG ∧
    (BudgetReader.load ⟨none⟩
        ⟨true, none, none, some FALLBACK_CONFIG⟩).world.redisCache =
      some FALLBACK_CONFIG ∧
    BudgetReader.load
        (BudgetReader.load ⟨none⟩ ⟨true, none, none, some FALLBACK_CONFIG⟩).state
        (BudgetReader.load ⟨none⟩ ⟨true, none, none, some FALLBACK_CONFIG⟩).world =
      ⟨(BudgetReader.load ⟨none⟩ ⟨true, none, none, some FALLBACK_CONFIG⟩).config,
        (BudgetReader.load ⟨none⟩ ⟨true, none, none, some FALLBACK_CONFIG⟩).state,
        (BudgetReader.load ⟨none⟩ ⟨true, none, none, some FALLBACK_CONFIG⟩).world,
        false, false⟩ := by
  have h := budget_load_fallback_chain ⟨true, none, none, some FALLBACK_CONFIG⟩
    FALLBACK_CONFIG FALLBACK_CONFIG FALLBACK_CONFIG ⟨none⟩
  exact ⟨h.1.2.2.1 (by decide) rfl rfl,
    (h.2.1 rfl (by decide)).2 rfl rfl,
    h.2.2⟩

end PiSetup
